import Mathlib

/-!
Shallow embedding of the migration orchestrator (src/docker.rs, src/migration.rs)
of the gcp-live-migration repository.

Rust `Result` values returned normally are modelled by `RunResult.ok` /
`RunResult.err`; a panic (`unwrap` / `expect` on a failed value) is modelled by
`RunResult.panic`, since several failure paths in the source unwrap instead of
propagating.  External collaborators (the Docker client, the ssh/sftp channel,
the zip codec, the local filesystem) are modelled as oracles / explicit state,
and the calls the orchestrator makes against them are recorded in traces.
-/

/-- Outcome of running a piece of Rust code: it returns `Ok`, returns `Err`,
or diverges with a panic (`unwrap` / `expect` on a failure). -/
inductive RunResult (α : Type) where
  | ok (a : α)
  | err (e : String)
  | panic (msg : String)
  deriving DecidableEq, Repr

def RunResult.isOk : RunResult α → Bool
  | .ok _ => true
  | _ => false

def RunResult.isErr : RunResult α → Bool
  | .err _ => true
  | _ => false

def RunResult.isPanic : RunResult α → Bool
  | .panic _ => true
  | _ => false

/-- `struct Checkpoint` from src/docker.rs. -/
structure Checkpoint where
  checkpoint_name : String
  container_id : String
  deriving DecidableEq, Repr

/-- A container as returned by `Docker::get_containers`; only the `Id` field
is used by the orchestrator. -/
structure Container where
  Id : String
  deriving DecidableEq, Repr

/-- Oracle for the external blocking Docker client (`rs_docker::Docker`):
the outcome of `get_containers(false)` and of each
`create_checkpoint(container_id, checkpoint_name, None, false)` request. -/
structure DockerClient where
  containers : Except String (List Container)
  createCheckpoint : String → String → Except String Unit

/-- Calls the orchestrator can make against the Docker client.  The client also
offers checkpoint deletion; the orchestrator never invokes it (no rollback). -/
inductive ClientCall where
  | getContainers
  | createCheckpoint (containerId checkpointName : String)
  | deleteCheckpoint (containerId checkpointName : String)
  deriving DecidableEq, Repr

/-- `struct DockerBackend` from src/docker.rs. -/
structure DockerBackend where
  client : DockerClient
  checkpoints : List Checkpoint

/-- The per-container loop inside `checkpoint_all_containers`:
`containers.iter().map(|c| { let checkpoint_name = rng.gen::<u64>().to_string();
docker.create_checkpoint(&c.Id, &checkpoint_name, None, false)?; Ok(Checkpoint{..}) })
.collect::<Result<Vec<_>>>()`.  `rng` is the stream of `rng.gen::<u64>()` draws
(values reduced mod 2^64), `k` the index of the next draw.  Collecting into
`Result` is fail-fast: the first `Err` stops the iteration, so later containers
receive no `create_checkpoint` request.  The second component records the client
calls actually made. -/
def checkpointLoop (cl : DockerClient) (rng : Nat → Nat) :
    List Container → Nat → Except String (List Checkpoint) × List ClientCall
  | [], _ => (Except.ok [], [])
  | c :: rest, k =>
    match cl.createCheckpoint c.Id (toString (rng k % 2 ^ 64)) with
    | Except.error e =>
        (Except.error e, [ClientCall.createCheckpoint c.Id (toString (rng k % 2 ^ 64))])
    | Except.ok _ =>
        (match (checkpointLoop cl rng rest (k + 1)).1 with
          | Except.error e => Except.error e
          | Except.ok l =>
              Except.ok ({ checkpoint_name := toString (rng k % 2 ^ 64),
                           container_id := c.Id } :: l),
         ClientCall.createCheckpoint c.Id (toString (rng k % 2 ^ 64)) ::
           (checkpointLoop cl rng rest (k + 1)).2)

/-- The `create_checkpoint` requests issued for a list of containers, one per
container in order, with the fresh names drawn from `rng` starting at index `k`. -/
def createCalls (rng : Nat → Nat) : List Container → Nat → List ClientCall
  | [], _ => []
  | c :: rest, k =>
      ClientCall.createCheckpoint c.Id (toString (rng k % 2 ^ 64)) ::
        createCalls rng rest (k + 1)

/-- The list of `Checkpoint` records a fully successful batch produces: one per
container in order, named by the successive random draws. -/
def expectedCheckpoints (rng : Nat → Nat) : List Container → Nat → List Checkpoint
  | [], _ => []
  | c :: rest, k =>
      { checkpoint_name := toString (rng k % 2 ^ 64), container_id := c.Id } ::
        expectedCheckpoints rng rest (k + 1)

/-- `DockerBackend::checkpoint_all_containers`.  `get_containers(false).unwrap()`
panics on enumeration failure; the collected per-container `Result` is also
`.unwrap()`ed, so a failing checkpoint request panics as well (the mutex /
scoped-thread plumbing around the loop only forwards that panic).  Returns the
run outcome together with the trace of Docker client calls. -/
def DockerBackend.checkpoint_all_containers (s : DockerBackend) (rng : Nat → Nat) :
    RunResult (List Checkpoint) × List ClientCall :=
  match s.client.containers with
  | Except.error e => (RunResult.panic e, [ClientCall.getContainers])
  | Except.ok cs =>
      (match (checkpointLoop s.client rng cs 0).1 with
        | Except.error e => RunResult.panic e
        | Except.ok l => RunResult.ok l,
       ClientCall.getContainers :: (checkpointLoop s.client rng cs 0).2)

/-- `DockerBackend::new`.  `envVar` models `std::env::var` (`none` = variable
absent), `connect` models `Docker::connect`.  A missing DOCKER_HOST hits
`.expect(..)` and a failed connect hits `.unwrap()`: both panic. -/
def DockerBackend.new (envVar : String → Option String)
    (connect : String → Except String DockerClient) : RunResult DockerBackend :=
  match envVar ("DOCKER_HOST") with
  | none => RunResult.panic
      ("DOCKER_HOST not found in environment. Please add it with a correct target to .env(Typically: DOCKER_HOST=unix:///var/run/docker.sock")
  | some host =>
      match connect host with
      | Except.error e => RunResult.panic e
      | Except.ok client => RunResult.ok { client := client, checkpoints := [] }

/-- `Migration::checkpoint` for `DockerBackend`:
`self.checkpoints = self.checkpoint_all_containers().await?; Ok(())`.
Returns the outcome and the updated backend state. -/
def Migration.checkpoint (s : DockerBackend) (rng : Nat → Nat) :
    RunResult Unit × DockerBackend :=
  match (DockerBackend.checkpoint_all_containers s rng).1 with
  | RunResult.ok l => (RunResult.ok (), { s with checkpoints := l })
  | RunResult.err e => (RunResult.err e, s)
  | RunResult.panic m => (RunResult.panic m, s)

/-- Observable actions of the transfer / restore pipeline.  The last two
(extracting an archive entry, resuming a workload from a checkpoint) are the
restoration actions an implementation of remote restore would emit. -/
inductive TransferAction where
  | getSshSession (ip : String)
  | requestSubsystem (nm : String)
  | sftpSessionNew
  | zipDir (src dst : String)
  | sftpCreate (path : String)
  | openLocalFile (path : String)
  | copyLocalToRemote
  | flushRemote
  | extractEntry (nm : String)
  | resumeWorkload (containerId checkpointName : String)
  deriving DecidableEq, Repr

/-- An action that restores workloads (archive extraction or workload
resumption), as opposed to capturing or transferring state. -/
def TransferAction.isRestoration : TransferAction → Bool
  | .extractEntry _ => true
  | .resumeWorkload _ _ => true
  | _ => false

/-- Outcome oracle for the external transfer collaborators used by
`restore_all_containers`, one flag per fallible step, in program order. -/
structure TransferEnv where
  sshOk : Bool
  subsystemOk : Bool
  sftpOk : Bool
  zipOk : Bool
  createRemoteOk : Bool
  openLocalOk : Bool
  copyOk : Bool
  flushOk : Bool
  deriving DecidableEq, Repr

def allOkEnv : TransferEnv :=
  { sshOk := true, subsystemOk := true, sftpOk := true, zipOk := true,
    createRemoteOk := true, openLocalOk := true, copyOk := true, flushOk := true }

/-- The full sequence of actions `restore_all_containers` performs when every
step succeeds, in program order. -/
def migrationTrace (ip : String) : List TransferAction :=
  [TransferAction.getSshSession ip,
   TransferAction.requestSubsystem ("sftp"),
   TransferAction.sftpSessionNew,
   TransferAction.zipDir ("/var/lib/docker/containers") ("./containers.zip"),
   TransferAction.sftpCreate ("./containers.zip"),
   TransferAction.openLocalFile ("./containers.zip"),
   TransferAction.copyLocalToRemote,
   TransferAction.flushRemote]

/-- `DockerBackend::restore_all_containers`.  Eight fallible steps in sequence;
a failing step ends the run with the trace of the attempted steps so far
(`(migrationTrace ip).take n`).  Every step propagates its error with `?`
except `SftpSession::new(..).await.unwrap()`, which panics.  The receiver
`self` is never read — in particular `self.checkpoints` plays no role. -/
def DockerBackend.restore_all_containers (_self : DockerBackend) (ip_addr : String)
    (env : TransferEnv) : RunResult Unit × List TransferAction :=
  if env.sshOk then
    if env.subsystemOk then
      if env.sftpOk then
        if env.zipOk then
          if env.createRemoteOk then
            if env.openLocalOk then
              if env.copyOk then
                if env.flushOk then
                  (RunResult.ok (), migrationTrace ip_addr)
                else (RunResult.err ("flush failed"), (migrationTrace ip_addr).take 8)
              else (RunResult.err ("copy failed"), (migrationTrace ip_addr).take 7)
            else (RunResult.err ("open local archive failed"), (migrationTrace ip_addr).take 6)
          else (RunResult.err ("sftp create failed"), (migrationTrace ip_addr).take 5)
        else (RunResult.err ("zip_dir failed"), (migrationTrace ip_addr).take 4)
      else (RunResult.panic ("SftpSession new failed"), (migrationTrace ip_addr).take 3)
    else (RunResult.err ("request_subsystem failed"), (migrationTrace ip_addr).take 2)
  else (RunResult.err ("get_ssh_session failed"), (migrationTrace ip_addr).take 1)

/-- `Migration::migrate` for `DockerBackend`:
`self.restore_all_containers(&ip_addr).await` — the state is left untouched. -/
def Migration.migrate (s : DockerBackend) (ip_addr : String) (env : TransferEnv) :
    (RunResult Unit × List TransferAction) × DockerBackend :=
  (DockerBackend.restore_all_containers s ip_addr env, s)

/-- A local filesystem: the set of existing directories and the files with
their byte contents.  Paths are lists of components. -/
structure FS where
  dirs : List (List String)
  files : List (List String × List Nat)
  deriving DecidableEq, Repr

/-- `fs::File::create(p)` followed by writing `data`: succeeds iff the parent
directory of `p` exists and `p` is not itself a directory (POSIX `open` with
`O_CREAT` does not create missing parent directories); truncates/overwrites an
existing file at `p`. -/
def fsWrite (fs : FS) (p : List String) (data : List Nat) : Option FS :=
  if fs.dirs.contains (p.dropLast) && !(fs.dirs.contains p) then
    some { fs with files := (p, data) :: fs.files.filter (fun e => !(e.1 == p)) }
  else none

/-- The contents of the file at `p`, if any. -/
def fsLookup (fs : FS) (p : List String) : Option (List Nat) :=
  (fs.files.find? (fun e => e.1 == p)).map (fun e => e.2)

/-- `DockerBackend::restore_containers`.  The archive is its list of entries
(relative path, byte contents) in archive order; for each entry the code runs
`fs::File::create(dest.join(file.name()))?` and copies the bytes into it.
A failing create ends the run with `Err`, leaving the files written so far. -/
def DockerBackend.restore_containers (_self : DockerBackend) :
    List (List String × List Nat) → List String → FS → RunResult Unit × FS
  | [], _, fs => (RunResult.ok (), fs)
  | (nm, data) :: rest, dest, fs =>
      match fsWrite fs (dest ++ nm) data with
      | none => (RunResult.err ("failed to create file"), fs)
      | some fs2 => DockerBackend.restore_containers _self rest dest fs2

/-- Modelled from the spec: the Archive Codec (`zip_dir` in src/zip.rs, which is
not among the provided sources) builds a single archive from a directory tree;
per sections 2 and 6 of the spec the archive consists of the tree's entries,
each a relative path with its byte contents, in tree order. -/
def build_archive (tree : List (List String × List Nat)) :
    List (List String × List Nat) := tree

/-- Concrete client whose two containers both checkpoint successfully. -/
def cl3 : DockerClient :=
  { containers := Except.ok [{ Id := "c1" }, { Id := "c2" }],
    createCheckpoint := fun _ _ => Except.ok () }

/-- Concrete client whose enumeration succeeds but every checkpoint-creation
request fails. -/
def cl2 : DockerClient :=
  { containers := Except.ok [{ Id := "c1" }, { Id := "c2" }],
    createCheckpoint := fun _ _ => Except.error ("criu checkpoint request failed") }

/-- A random stream that always draws 9. -/
def rng9 : Nat → Nat := fun _ => 9

def backend3 : DockerBackend := { client := cl3, checkpoints := [] }

def backend2 : DockerBackend := { client := cl2, checkpoints := [] }

/-- A backend that already holds a checkpoint list from a prior batch. -/
def backend6 : DockerBackend :=
  { client := cl3, checkpoints := [{ checkpoint_name := "stale", container_id := "old" }] }

def csW : List Container := [{ Id := "c1" }, { Id := "c2" }]

def ckListW : List Checkpoint :=
  [{ checkpoint_name := "9", container_id := "c1" },
   { checkpoint_name := "9", container_id := "c2" }]

/-- Environment lookup with DOCKER_HOST (and everything else) absent. -/
def envNone : String → Option String := fun _ => none

def connectW : String → Except String DockerClient := fun _ => Except.ok cl3

/-- Archive with a top-level entry and an entry inside a subdirectory. -/
def archiveW : List (List String × List Nat) :=
  [([("a.txt")], [104, 105]), ([("sub"), ("b.txt")], [1, 2, 3])]

/-- An empty destination directory named `destination` (and the filesystem
root), with no other directories and no files. -/
def fsEmptyDest : FS := { dirs := [[], [("destination")]], files := [] }

/-- Directory tree consisting of the single file `sub/b.txt`. -/
def treeW : List (List String × List Nat) := [([("sub"), ("b.txt")], [7, 7])]

/-- An empty destination directory named `d`. -/
def fsDestD : FS := { dirs := [[], [("d")]], files := [] }

/-! Helper lemmas about the checkpoint batch loop. -/

theorem expectedCheckpoints_length (rng : Nat → Nat) :
    ∀ (cs : List Container) (k : Nat),
      (expectedCheckpoints rng cs k).length = cs.length := by
  intro cs
  induction cs with
  | nil => intro k; rfl
  | cons c rest ih => intro k; simp [expectedCheckpoints, ih]

theorem expectedCheckpoints_get (rng : Nat → Nat) :
    ∀ (cs : List Container) (k i : Nat)
      (h2 : i < (expectedCheckpoints rng cs k).length) (h : i < cs.length),
      (expectedCheckpoints rng cs k).get ⟨i, h2⟩ =
        { checkpoint_name := toString (rng (k + i) % 2 ^ 64),
          container_id := (cs.get ⟨i, h⟩).Id } := by
  intro cs
  induction cs with
  | nil => intro k i h2 h; exact absurd h (Nat.not_lt_zero i)
  | cons c rest ih =>
    intro k i h2 h
    cases i with
    | zero => simp [expectedCheckpoints]
    | succ j =>
      have h' : j < rest.length := Nat.lt_of_succ_lt_succ h
      have h2' : j < (expectedCheckpoints rng rest (k + 1)).length := by
        rw [expectedCheckpoints_length]; exact h'
      have e1 : (expectedCheckpoints rng (c :: rest) k).get ⟨j + 1, h2⟩ =
          (expectedCheckpoints rng rest (k + 1)).get ⟨j, h2'⟩ := rfl
      rw [e1, ih (k + 1) j h2' h']
      have e2 : k + 1 + j = k + (j + 1) := by omega
      rw [e2]
      rfl

theorem checkpointLoop_ok (cl : DockerClient) (rng : Nat → Nat) :
    ∀ (cs : List Container) (k : Nat) (l : List Checkpoint),
      (checkpointLoop cl rng cs k).1 = Except.ok l →
      l = expectedCheckpoints rng cs k := by
  intro cs
  induction cs with
  | nil =>
    intro k l h
    simp [checkpointLoop] at h
    simp [expectedCheckpoints, ← h]
  | cons c rest ih =>
    intro k l h
    simp only [checkpointLoop] at h
    cases hc : cl.createCheckpoint c.Id (toString (rng k % 2 ^ 64)) with
    | error e => rw [hc] at h; simp at h
    | ok u =>
      rw [hc] at h
      simp only [] at h
      cases hr : (checkpointLoop cl rng rest (k + 1)).1 with
      | error e => rw [hr] at h; simp at h
      | ok l2 =>
        rw [hr] at h
        simp at h
        rw [← h]
        rw [ih (k + 1) l2 hr]
        rfl

theorem checkpointLoop_no_delete (cl : DockerClient) (rng : Nat → Nat) :
    ∀ (cs : List Container) (k : Nat) (cid nm : String),
      ClientCall.deleteCheckpoint cid nm ∉ (checkpointLoop cl rng cs k).2 := by
  intro cs
  induction cs with
  | nil => intro k cid nm; simp [checkpointLoop]
  | cons c rest ih =>
    intro k cid nm
    simp only [checkpointLoop]
    cases hc : cl.createCheckpoint c.Id (toString (rng k % 2 ^ 64)) with
    | error e => simp
    | ok u => simp [ih (k + 1) cid nm]

theorem checkpointLoop_trace (cl : DockerClient) (rng : Nat → Nat) :
    ∀ (cs : List Container) (k : Nat), ∃ m, m ≤ cs.length ∧
      (checkpointLoop cl rng cs k).2 = createCalls rng (cs.take m) k := by
  intro cs
  induction cs with
  | nil => intro k; exact ⟨0, Nat.le_refl 0, rfl⟩
  | cons c rest ih =>
    intro k
    cases hc : cl.createCheckpoint c.Id (toString (rng k % 2 ^ 64)) with
    | error e =>
      refine ⟨1, by simp, ?_⟩
      simp only [checkpointLoop, hc]
      simp [createCalls, List.take]
    | ok u =>
      obtain ⟨m, hm, ht⟩ := ih (k + 1)
      refine ⟨m + 1, by simpa using Nat.succ_le_succ hm, ?_⟩
      simp only [checkpointLoop, hc]
      simp [createCalls, List.take, ht]

theorem checkpoint_batch_not_err (s : DockerBackend) (rng : Nat → Nat) :
    ((DockerBackend.checkpoint_all_containers s rng).1).isErr = false := by
  unfold DockerBackend.checkpoint_all_containers
  cases hx : s.client.containers with
  | error e => rfl
  | ok cs =>
    cases hy : (checkpointLoop s.client rng cs 0).1 with
    | error e => simp [hy, RunResult.isErr]
    | ok l => simp [hy, RunResult.isErr]

/-! Claim theorems. -/

/-- C9: `DockerBackend::new` and `checkpoint_all_containers` never return an
`Err` value — every failure path panics instead — so whenever either function
returns at all, the returned `Result` is `Ok`. -/
theorem new_and_batch_never_return_err :
    (∀ (envVar : String → Option String)
       (connect : String → Except String DockerClient),
        (DockerBackend.new envVar connect).isErr = false) ∧
    (∀ (s : DockerBackend) (rng : Nat → Nat),
        ((DockerBackend.checkpoint_all_containers s rng).1).isErr = false) := by
  constructor
  · intro envVar connect
    cases hx : envVar ("DOCKER_HOST") with
    | none => simp [DockerBackend.new, hx, RunResult.isErr]
    | some host =>
      cases hy : connect host with
      | error e => simp [DockerBackend.new, hx, hy, RunResult.isErr]
      | ok c => simp [DockerBackend.new, hx, hy, RunResult.isErr]
  · intro s rng
    exact checkpoint_batch_not_err s rng

/-- C8: constructing the orchestrator when the DOCKER_HOST environment value is
absent is fatal: the constructor panics and never returns normally. -/
theorem new_panics_when_docker_host_missing (envVar : String → Option String)
    (connect : String → Except String DockerClient)
    (h : envVar ("DOCKER_HOST") = none) :
    (DockerBackend.new envVar connect).isPanic = true := by
  unfold DockerBackend.new
  rw [h]
  rfl

/-- C8 witness: with an empty environment the constructor panics. -/
theorem new_panics_when_docker_host_missing_witness :
    envNone ("DOCKER_HOST") = none ∧
    (DockerBackend.new envNone connectW).isPanic = true :=
  ⟨rfl, new_panics_when_docker_host_missing envNone connectW rfl⟩

/-- C2 counterexample: a batch in which checkpoint creation fails does fail,
but the failure is a panic — not the `Err` result the claim asserts. -/
theorem checkpoint_batch_err_counterexample :
    cl2.createCheckpoint ("c1") ("9") =
      Except.error ("criu checkpoint request failed") ∧
    ((DockerBackend.checkpoint_all_containers backend2 rng9).1).isOk = false ∧
    ((DockerBackend.checkpoint_all_containers backend2 rng9).1).isErr = false ∧
    ((DockerBackend.checkpoint_all_containers backend2 rng9).1).isPanic = true :=
  ⟨rfl, rfl, rfl, rfl⟩

/-- C2 (amended): when workload enumeration or any single checkpoint-creation
request fails, the whole batch fails, surfaced as a panic (the worker thread
unwraps the error), not as an `Err` result; already-created checkpoints are not
rolled back (no deletion request is ever issued), reported, or retried (the
create requests are a single fail-fast pass over a prefix of the enumerated
workloads). -/
theorem checkpoint_batch_failure_panics (s : DockerBackend) (rng : Nat → Nat)
    (h : ((DockerBackend.checkpoint_all_containers s rng).1).isOk = false) :
    ((DockerBackend.checkpoint_all_containers s rng).1).isPanic = true ∧
    (∀ cid nm, ClientCall.deleteCheckpoint cid nm ∉
        (DockerBackend.checkpoint_all_containers s rng).2) ∧
    (∀ cs, s.client.containers = Except.ok cs →
        ∃ m, m ≤ cs.length ∧
          (DockerBackend.checkpoint_all_containers s rng).2 =
            ClientCall.getContainers :: createCalls rng (cs.take m) 0) := by
  refine ⟨?_, ?_, ?_⟩
  · have hne := checkpoint_batch_not_err s rng
    cases hq : (DockerBackend.checkpoint_all_containers s rng).1 with
    | ok l => rw [hq] at h; simp [RunResult.isOk] at h
    | err e => rw [hq] at hne; simp [RunResult.isErr] at hne
    | panic m => rfl
  · intro cid nm
    unfold DockerBackend.checkpoint_all_containers
    cases hx : s.client.containers with
    | error e => simp
    | ok cs => simp [checkpointLoop_no_delete s.client rng cs 0 cid nm]
  · intro cs hcs
    obtain ⟨m, hm, ht⟩ := checkpointLoop_trace s.client rng cs 0
    refine ⟨m, hm, ?_⟩
    unfold DockerBackend.checkpoint_all_containers
    rw [hcs]
    simp [ht]

/-- C2 witness: the concrete failing batch panics, issues no deletion request,
and its client-call trace is a fail-fast pass over a prefix of the containers. -/
theorem checkpoint_batch_failure_panics_witness :
    ((DockerBackend.checkpoint_all_containers backend2 rng9).1).isOk = false ∧
    (((DockerBackend.checkpoint_all_containers backend2 rng9).1).isPanic = true ∧
     (∀ cid nm, ClientCall.deleteCheckpoint cid nm ∉
         (DockerBackend.checkpoint_all_containers backend2 rng9).2) ∧
     (∀ cs, backend2.client.containers = Except.ok cs →
         ∃ m, m ≤ cs.length ∧
           (DockerBackend.checkpoint_all_containers backend2 rng9).2 =
             ClientCall.getContainers :: createCalls rng9 (cs.take m) 0)) :=
  ⟨rfl, checkpoint_batch_failure_panics backend2 rng9 rfl⟩

/-- C3: a successful `checkpoint_all_containers` call over the enumerated
running workloads `cs` returns exactly one `Checkpoint` record per workload, in
order, with `container_id` equal to that workload's id, and every
`checkpoint_name` the decimal rendering of an unsigned 64-bit integer. -/
theorem checkpoint_batch_success_shape (s : DockerBackend) (rng : Nat → Nat)
    (cs : List Container) (l : List Checkpoint)
    (hcs : s.client.containers = Except.ok cs)
    (hok : (DockerBackend.checkpoint_all_containers s rng).1 = RunResult.ok l) :
    l.length = cs.length ∧
    ∀ i (h1 : i < l.length) (h2 : i < cs.length),
      (l.get ⟨i, h1⟩).container_id = (cs.get ⟨i, h2⟩).Id ∧
      ∃ n, n < 2 ^ 64 ∧ (l.get ⟨i, h1⟩).checkpoint_name = toString n := by
  have hl : l = expectedCheckpoints rng cs 0 := by
    unfold DockerBackend.checkpoint_all_containers at hok
    rw [hcs] at hok
    simp at hok
    cases hr : (checkpointLoop s.client rng cs 0).1 with
    | error e => rw [hr] at hok; simp at hok
    | ok l2 =>
      rw [hr] at hok
      simp at hok
      subst hok
      exact checkpointLoop_ok s.client rng cs 0 l2 hr
  subst hl
  refine ⟨expectedCheckpoints_length rng cs 0, ?_⟩
  intro i h1 h2
  rw [expectedCheckpoints_get rng cs 0 i h1 h2]
  exact ⟨rfl, rng (0 + i) % 2 ^ 64, Nat.mod_lt _ (by norm_num), rfl⟩

/-- C3 witness: the two-container backend succeeds and returns two records of
exactly the required shape. -/
theorem checkpoint_batch_success_shape_witness :
    backend3.client.containers = Except.ok csW ∧
    (DockerBackend.checkpoint_all_containers backend3 rng9).1 =
      RunResult.ok ckListW ∧
    (ckListW.length = csW.length ∧
     ∀ i (h1 : i < ckListW.length) (h2 : i < csW.length),
       (ckListW.get ⟨i, h1⟩).container_id = (csW.get ⟨i, h2⟩).Id ∧
       ∃ n, n < 2 ^ 64 ∧ (ckListW.get ⟨i, h1⟩).checkpoint_name = toString n) :=
  ⟨rfl, rfl, checkpoint_batch_success_shape backend3 rng9 csW ckListW rfl rfl⟩

/-- C6: after a successful `checkpoint()` call the orchestrator's stored
checkpoint list equals exactly the newly captured batch, regardless of what it
contained before (wholesale replacement, no append). -/
theorem checkpoint_replaces_stored_list (s : DockerBackend) (rng : Nat → Nat)
    (l : List Checkpoint)
    (h : (DockerBackend.checkpoint_all_containers s rng).1 = RunResult.ok l) :
    (Migration.checkpoint s rng).1 = RunResult.ok () ∧
    (Migration.checkpoint s rng).2.checkpoints = l := by
  unfold Migration.checkpoint
  rw [h]
  exact ⟨rfl, rfl⟩

/-- C6 witness: a backend holding a stale list from a prior call ends up with
exactly the new batch, the stale entry gone. -/
theorem checkpoint_replaces_stored_list_witness :
    (DockerBackend.checkpoint_all_containers backend6 rng9).1 =
      RunResult.ok ckListW ∧
    ((Migration.checkpoint backend6 rng9).1 = RunResult.ok () ∧
     (Migration.checkpoint backend6 rng9).2.checkpoints = ckListW) :=
  ⟨rfl, checkpoint_replaces_stored_list backend6 rng9 ckListW rfl⟩

/-- C1: `migrate(destination)` transfers the state archive — returning `Ok`
when every transfer step succeeds — but never triggers restoration on the
destination: for every starting state, destination, and environment its action
trace contains no archive extraction and no workload resumption. -/
theorem migrate_transfers_without_restoring :
    ∀ (s : DockerBackend) (ip : String) (env : TransferEnv),
      ((Migration.migrate s ip allOkEnv).1.1 = RunResult.ok ()) ∧
      ((Migration.migrate s ip env).1.2.all
          (fun a => !(TransferAction.isRestoration a)) = true) := by
  intro s ip env
  refine ⟨rfl, ?_⟩
  obtain ⟨b1, b2, b3, b4, b5, b6, b7, b8⟩ := env
  cases b1 <;> cases b2 <;> cases b3 <;> cases b4 <;>
    cases b5 <;> cases b6 <;> cases b7 <;> cases b8 <;> rfl

/-- C7: `migrate` has no precondition that `checkpoint()` was called first: its
outcome and action trace are identical whatever the stored checkpoint list is
(in particular when it is empty), and with all transfer steps succeeding it
runs to `Ok` even though no checkpoint was ever taken. -/
theorem migrate_runs_without_prior_checkpoint :
    ∀ (client : DockerClient) (cps cps' : List Checkpoint) (ip : String)
      (env : TransferEnv),
      (Migration.migrate { client := client, checkpoints := cps } ip env).1 =
        (Migration.migrate { client := client, checkpoints := cps' } ip env).1 ∧
      (Migration.migrate { client := client, checkpoints := [] } ip allOkEnv).1.1 =
        RunResult.ok () :=
  fun _ _ _ _ _ => ⟨rfl, rfl⟩

/-- C10: `migrate` neither modifies nor reads the stored checkpoint list: the
backend state after the call equals the state before it, and replacing the
`checkpoints` field by anything changes neither outcome nor trace. -/
theorem migrate_preserves_checkpoint_list :
    ∀ (s : DockerBackend) (ip : String) (env : TransferEnv),
      (Migration.migrate s ip env).2 = s ∧
      ∀ cps, (Migration.migrate { s with checkpoints := cps } ip env).1 =
        (Migration.migrate s ip env).1 :=
  fun _ _ _ => ⟨rfl, fun _ => rfl⟩

/-- C4: evaluating the spec's own scenario: restoring an archive holding
`a.txt` and `sub/b.txt` into an empty directory `destination` does NOT produce
`destination/sub/b.txt` — `fs::File::create` fails because the subdirectory was
never created, the call returns an error, and only `destination/a.txt` (with
the archived bytes) has been written. -/
theorem restore_containers_subdir_entry_fails :
    ((DockerBackend.restore_containers backend3 archiveW
        [("destination")] fsEmptyDest).1).isErr = true ∧
    fsLookup (DockerBackend.restore_containers backend3 archiveW
        [("destination")] fsEmptyDest).2
      [("destination"), ("a.txt")] = some [104, 105] ∧
    fsLookup (DockerBackend.restore_containers backend3 archiveW
        [("destination")] fsEmptyDest).2
      [("destination"), ("sub"), ("b.txt")] = none :=
  ⟨rfl, rfl, rfl⟩

/-- C5: the round-trip law fails on the code: building the archive of the
directory tree holding the single file `sub/b.txt` and restoring it into the
empty directory `d` errors out and produces no `d/sub/b.txt` at all, instead of
a byte-for-byte copy of the tree. -/
theorem roundtrip_fails_on_subdirectory :
    ((DockerBackend.restore_containers backend3 (build_archive treeW)
        [("d")] fsDestD).1).isErr = true ∧
    fsLookup (DockerBackend.restore_containers backend3 (build_archive treeW)
        [("d")] fsDestD).2
      [("d"), ("sub"), ("b.txt")] = none :=
  ⟨rfl, rfl⟩
